import Mathlib

/-!
Shallow embedding of the renshuu_mcp repository's name-resolution convenience
layer (src/src/client.py) and of the HTTP façade's handlers and proxy
(src/run_openapi_server.py), together with theorems settling the frozen claims
about the spec.

Conventions of the embedding:
* JSON dictionary access `d.get(k)` is modelled with `Option` fields
  (`none` = key absent); `d.get(k, default)` is `Option.getD`.
* Python string truthiness (`None` and `""` are falsy) is `truthyStr`;
  Python `a or b` on such values is `pyOrStr`.
* Python `str.lower()` is `pyLower`, per-character lowercasing (this matches
  `str.lower` on ASCII data, which is all the claims exercise).
* Python `str(x)` on an optional integer id is `pyStr` (`str(None) = "None"`).
* A raised Python exception is the `Except.error` branch of an `Except`;
  returning normally is `Except.ok`.
* The three remote calls made by the orchestrators are supplied by an
  environment record, and every orchestrator returns, next to its result, the
  ordered trace of remote calls it issued, so that "never invoked" /
  "at most once" claims are statable.
-/

namespace Renshuu

/-- JSON-like values: the shape of parsed remote response bodies. -/
inductive Json where
  | null
  | bool (b : Bool)
  | num (n : Int)
  | str (s : String)
  | arr (elems : List Json)
  | obj (fields : List (String × Json))
deriving Repr

/-- Python `str.lower()`, embedded as per-character lowercasing. -/
def pyLower (s : String) : String := String.mk (s.data.map Char.toLower)

/-- Python truthiness of an optional string: `None` and `""` are falsy. -/
def truthyStr : Option String → Bool
  | none => false
  | some s => s != ""

/-- Python `a or b` for optional strings: `b` when `a` is falsy. -/
def pyOrStr (a b : Option String) : Option String := if truthyStr a then a else b

/-- Python `str(x)` on an optional integer id: `str(None) = "None"`. -/
def pyStr : Option Int → String
  | none => "None"
  | some n => toString n

/-- An entry of the `schedules` array of `GET /schedule`
    (client.py only reads `.get("id")` and `.get("name")`). -/
structure Schedule where
  id : Option Int
  name : Option String
deriving Repr, DecidableEq

/-- Parsed response of `GET /schedule`: `response.get("schedules", [])`. -/
structure SchedulesResponse where
  schedules : List Schedule
deriving Repr, DecidableEq

/-- An entry of a subgroup's `lists` array of `GET /lists`
    (client.py only reads `.get("list_id")` and `.get("title")`). -/
structure ListEntry where
  list_id : Option Int
  title : Option String
deriving Repr, DecidableEq

/-- A subgroup: `subgroup.get("lists", [])` (absent key modelled as `[]`). -/
structure Subgroup where
  lists : List ListEntry
deriving Repr, DecidableEq

/-- A termtype group: `group.get("groups", [])`. -/
structure TermtypeGroup where
  groups : List Subgroup
deriving Repr, DecidableEq

/-- Parsed response of `GET /lists`: `response.get("termtype_groups", [])`. -/
structure ListsResponse where
  termtype_groups : List TermtypeGroup
deriving Repr, DecidableEq

/-- A word search result entry; client.py reads `.get("id")`,
    `.get("kanji_full", "")`, `.get("hiragana_full", "")`, `.get("def", [])`
    (the `"def"` key is the `defs` field here). -/
structure Word where
  id : Option Int
  kanji_full : Option String
  hiragana_full : Option String
  defs : Option Json
deriving Repr

/-- Parsed response of `GET /word/search`: `response.get("words", [])`. -/
structure SearchResponse where
  words : List Word
deriving Repr

/-- client.py line 135: `schedule.get("name", "").lower() == schedule_name.lower()`. -/
def scheduleMatches (schedule_name : String) (s : Schedule) : Bool :=
  pyLower (s.name.getD "") == pyLower schedule_name

/-- client.py line 207: `lst.get("title", "").lower() == list_name.lower()`. -/
def listMatches (list_name : String) (l : ListEntry) : Bool :=
  pyLower (l.title.getD "") == pyLower list_name

/-- The first-match loop of client.py lines 133-137. -/
def findMatchingSchedule (schedules : List Schedule) (schedule_name : String) :
    Option Schedule :=
  match schedules with
  | [] => none
  | s :: rest =>
    if scheduleMatches schedule_name s then some s
    else findMatchingSchedule rest schedule_name

/-- The first-match loop of client.py lines 205-209. -/
def findMatchingList (lists : List ListEntry) (list_name : String) :
    Option ListEntry :=
  match lists with
  | [] => none
  | l :: rest =>
    if listMatches list_name l then some l
    else findMatchingList rest list_name

/-- The flattening loop of client.py lines 196-202: termtype groups →
    subgroups → lists, in traversal order (`all_lists.extend(...)`). -/
def flattenLists (r : ListsResponse) : List ListEntry :=
  r.termtype_groups.flatMap fun g => g.groups.flatMap fun sg => sg.lists

/-- Python exceptions that the embedded code can raise. -/
inductive PyError where
  | httpStatusError (status : Nat)
  | jsonDecodeError (text : String)
  | valueError (msg : String)
deriving Repr, DecidableEq

/-- A raw remote HTTP response: status code, body text, and the JSON parse of
    the body (`none` when the body is not valid JSON). -/
structure HttpResponse where
  status : Nat
  text : String
  json : Option Json

/-- client.py `RenshuuClient._request` (lines 42-54), with the HTTP client
    initialized: `response.raise_for_status()` raises on a 4xx/5xx status and
    `response.json()` raises when the body is not valid JSON; otherwise the
    parsed body is returned. -/
def clientRequest (resp : HttpResponse) : Except PyError Json :=
  if 400 ≤ resp.status then Except.error (PyError.httpStatusError resp.status)
  else
    match resp.json with
    | none => Except.error (PyError.jsonDecodeError resp.text)
    | some j => Except.ok j

/-- The payload assembled by run_openapi_server.py `proxy_request`
    (lines 122-133): parsed body under `data`, or the raw text under `raw`. -/
inductive ProxyPayload where
  | dataPayload (ok : Bool) (status : Nat) (data : Json)
  | rawPayload (ok : Bool) (status : Nat) (raw : String)
deriving Repr

/-- run_openapi_server.py `proxy_request` response assembly (lines 122-135):
    returns the payload and the HTTP status of the `JSONResponse`; it never
    raises on a non-2xx/3xx status or an unparseable body. -/
def proxy_request (resp : HttpResponse) : ProxyPayload × Nat :=
  match resp.json with
  | some j => (ProxyPayload.dataPayload (decide (resp.status < 400)) resp.status j, resp.status)
  | none => (ProxyPayload.rawPayload (decide (resp.status < 400)) resp.status resp.text, resp.status)

/-- One remote call issued by an orchestrator, with its arguments. -/
inductive Call where
  | getSchedules
  | getLists
  | searchWords (value : String) (pg : Nat)
  | addWordToSchedule (word_id sched_id : String)
  | addWordToList (word_id list_id : String)
deriving Repr, DecidableEq

/-- Is a call the mutating attach call? -/
def Call.isAttach : Call → Bool
  | .addWordToSchedule _ _ => true
  | .addWordToList _ _ => true
  | _ => false

/-- The remote behaviour seen by `add_word_by_schedule_name`: what each of its
    three remote calls would return (or raise). -/
structure ScheduleEnv where
  getSchedules : Except PyError SchedulesResponse
  searchWords : String → Nat → Except PyError SearchResponse
  addWordToSchedule : String → String → Except PyError Json

/-- The remote behaviour seen by `add_word_by_list_name`. -/
structure ListEnv where
  getLists : Except PyError ListsResponse
  searchWords : String → Nat → Except PyError SearchResponse
  addWordToList : String → String → Except PyError Json

/-- The result dictionaries of client.py lines 139-177 / 211-249. -/
inductive AddWordResult where
  /-- `{"error": ..., "available_schedules": [s.get("name") for s in schedules]}` -/
  | scheduleNotFound (error : String) (available_schedules : List (Option String))
  /-- `{"error": ..., "available_lists": [lst.get("title") for lst in all_lists]}` -/
  | listNotFound (error : String) (available_lists : List (Option String))
  /-- `{"error": "Word '...' not found in dictionary"}` -/
  | wordNotFound (error : String)
  /-- the success dictionary of lines 164-177 / 236-249: container id & name,
      word id / kanji / hiragana / definitions, raw attach response under the
      api_response key -/
  | success (container_id : String) (container_name : Option String)
      (word_id : String) (kanji hiragana : String)
      (definitions : Json) (api_response : Json)
deriving Repr

/-- Python `"error" in result` as used by the HTTP handlers. -/
def AddWordResult.hasErrorKey : AddWordResult → Bool
  | .success .. => false
  | _ => true

/-- client.py `add_word_by_schedule_name` (lines 115-177), returning the
    result (or the propagated exception) together with the ordered trace of
    remote calls issued. -/
def add_word_by_schedule_name (env : ScheduleEnv) (schedule_name word : String) :
    Except PyError AddWordResult × List Call :=
  match env.getSchedules with
  | .error e => (.error e, [Call.getSchedules])
  | .ok resp =>
    match findMatchingSchedule resp.schedules schedule_name with
    | none =>
      (.ok (.scheduleNotFound ("Schedule '" ++ schedule_name ++ "' not found")
          (resp.schedules.map fun s => s.name)),
        [Call.getSchedules])
    | some m =>
      let schedule_id := pyStr m.id
      match env.searchWords word 1 with
      | .error e => (.error e, [Call.getSchedules, Call.searchWords word 1])
      | .ok sr =>
        match sr.words with
        | [] =>
          (.ok (.wordNotFound ("Word '" ++ word ++ "' not found in dictionary")),
            [Call.getSchedules, Call.searchWords word 1])
        | w0 :: _ =>
          let word_id := pyStr w0.id
          match env.addWordToSchedule word_id schedule_id with
          | .error e =>
            (.error e,
              [Call.getSchedules, Call.searchWords word 1,
                Call.addWordToSchedule word_id schedule_id])
          | .ok add_response =>
            (.ok (.success schedule_id m.name word_id (w0.kanji_full.getD "")
                (w0.hiragana_full.getD "") (w0.defs.getD (Json.arr [])) add_response),
              [Call.getSchedules, Call.searchWords word 1,
                Call.addWordToSchedule word_id schedule_id])

/-- client.py `add_word_by_list_name` (lines 179-249), returning the result
    (or the propagated exception) together with the ordered trace of remote
    calls issued. -/
def add_word_by_list_name (env : ListEnv) (list_name word : String) :
    Except PyError AddWordResult × List Call :=
  match env.getLists with
  | .error e => (.error e, [Call.getLists])
  | .ok resp =>
    let all_lists := flattenLists resp
    match findMatchingList all_lists list_name with
    | none =>
      (.ok (.listNotFound ("List '" ++ list_name ++ "' not found")
          (all_lists.map fun l => l.title)),
        [Call.getLists])
    | some m =>
      let list_id := pyStr m.list_id
      match env.searchWords word 1 with
      | .error e => (.error e, [Call.getLists, Call.searchWords word 1])
      | .ok sr =>
        match sr.words with
        | [] =>
          (.ok (.wordNotFound ("Word '" ++ word ++ "' not found in dictionary")),
            [Call.getLists, Call.searchWords word 1])
        | w0 :: _ =>
          let word_id := pyStr w0.id
          match env.addWordToList word_id list_id with
          | .error e =>
            (.error e,
              [Call.getLists, Call.searchWords word 1,
                Call.addWordToList word_id list_id])
          | .ok add_response =>
            (.ok (.success list_id m.title word_id (w0.kanji_full.getD "")
                (w0.hiragana_full.getD "") (w0.defs.getD (Json.arr [])) add_response),
              [Call.getLists, Call.searchWords word 1,
                Call.addWordToList word_id list_id])

/-- client.py `RenshuuClient.__init__` (lines 8-19):
    `api_key or RENSHUU_WRITE_KEY or RENSHUU_READ_KEY`, raising `ValueError`
    when the chosen value is falsy. -/
def clientInit (api_key write_key read_key : Option String) : Except PyError String :=
  let k := pyOrStr api_key (pyOrStr write_key read_key)
  if truthyStr k then Except.ok (k.getD "")
  else Except.error (PyError.valueError
    "API key not found. Set RENSHUU_WRITE_KEY or RENSHUU_READ_KEY, or pass it as a parameter.")

/-- Outcome of run_openapi_server.py module initialization (lines 17-20). -/
structure ServerStartup where
  apiKey : Option String
  warned : Bool
deriving Repr, DecidableEq

/-- run_openapi_server.py lines 17-20: `API_KEY = getenv(WRITE) or getenv(READ)`;
    when falsy a warning is printed and startup proceeds (this is a total
    function: it never fails). -/
def serverStartup (write_key read_key : Option String) : ServerStartup :=
  let k := pyOrStr write_key read_key
  { apiKey := k, warned := !truthyStr k }

/-- Python `str(e)` for the embedded exceptions (`str` of a `ValueError` is
    its message; the exact text of the other two is not claim-relevant). -/
def pyErrStr : PyError → String
  | .httpStatusError s => "HTTP status error: " ++ toString s
  | .jsonDecodeError t => "JSON decode error: " ++ t
  | .valueError m => m

/-- Parsed JSON body of a POST to /api/v1/renshuu/add-word-by-name
    (fields restricted to string-or-absent, which is what the claims range
    over). -/
structure ScheduleRequestBody where
  schedule_name : Option String
  word : Option String
deriving Repr, DecidableEq

/-- Parsed JSON body of a POST to /api/v1/renshuu/add-word-to-list-by-name. -/
structure ListRequestBody where
  list_name : Option String
  word : Option String
deriving Repr, DecidableEq

/-- The JSON bodies the convenience handlers can answer with. -/
inductive HandlerResponse where
  /-- `{"ok": false, "error": msg}` (missing-field rejection) -/
  | missingFields (error : String)
  /-- `{"ok": false, "error": str(e)}` (the outer `except` branch) -/
  | internalError (error : String)
  /-- `{"ok": false, "status": 400, "data": result}` -/
  | domainError (data : AddWordResult)
  /-- `{"ok": true, "status": 200, "data": result}` -/
  | successData (data : AddWordResult)
deriving Repr

/-- A handler's reply: response body, HTTP status, and the trace of remote
    calls issued while producing it. -/
structure HttpReply where
  response : HandlerResponse
  status : Nat
  calls : List Call

/-- run_openapi_server.py `add_word_by_schedule_name_handler` (lines 30-60):
    field validation, then `RenshuuClient(API_KEY)` (whose `__init__` falls
    back to the environment keys), then the orchestrator; any raised exception
    is caught by the outer `except` and mapped to a 500 envelope. -/
def add_word_by_schedule_name_handler
    (api_key write_key read_key : Option String)
    (body : ScheduleRequestBody) (env : ScheduleEnv) : HttpReply :=
  if !truthyStr body.schedule_name || !truthyStr body.word then
    { response := .missingFields "Missing schedule_name or word", status := 400, calls := [] }
  else
    match clientInit api_key write_key read_key with
    | .error e => { response := .internalError (pyErrStr e), status := 500, calls := [] }
    | .ok _ =>
      match add_word_by_schedule_name env (body.schedule_name.getD "") (body.word.getD "") with
      | (.error e, cs) => { response := .internalError (pyErrStr e), status := 500, calls := cs }
      | (.ok r, cs) =>
        if r.hasErrorKey then { response := .domainError r, status := 400, calls := cs }
        else { response := .successData r, status := 200, calls := cs }

/-- run_openapi_server.py `add_word_by_list_name_handler` (lines 63-93). -/
def add_word_by_list_name_handler
    (api_key write_key read_key : Option String)
    (body : ListRequestBody) (env : ListEnv) : HttpReply :=
  if !truthyStr body.list_name || !truthyStr body.word then
    { response := .missingFields "Missing list_name or word", status := 400, calls := [] }
  else
    match clientInit api_key write_key read_key with
    | .error e => { response := .internalError (pyErrStr e), status := 500, calls := [] }
    | .ok _ =>
      match add_word_by_list_name env (body.list_name.getD "") (body.word.getD "") with
      | (.error e, cs) => { response := .internalError (pyErrStr e), status := 500, calls := cs }
      | (.ok r, cs) =>
        if r.hasErrorKey then { response := .domainError r, status := 400, calls := cs }
        else { response := .successData r, status := 200, calls := cs }

/-! Concrete fixtures used to instantiate the theorems below. -/

/-- The catalog entry `{id: 1, name: "Daily"}` of the spec's end-to-end case. -/
def schedDaily : Schedule := { id := some 1, name := some "Daily" }

/-- The search result `{id: 42, kanji_full: "食べる"}` of the spec's end-to-end case. -/
def wordTaberu : Word :=
  { id := some 42, kanji_full := some "食べる", hiragana_full := none, defs := none }

/-- Remote behaviour for the end-to-end case: one schedule "Daily", the search
    returns the single word fixture, the attach call succeeds with `{}`. -/
def envDaily : ScheduleEnv :=
  { getSchedules := Except.ok { schedules := [schedDaily] },
    searchWords := fun _ _ => Except.ok { words := [wordTaberu] },
    addWordToSchedule := fun _ _ => Except.ok (Json.obj []) }

/-- A list-catalog entry `{list_id: 5, title: "Food"}`. -/
def listFood : ListEntry := { list_id := some 5, title := some "Food" }

/-- A nested lists response holding exactly `listFood`. -/
def listsFood : ListsResponse := { termtype_groups := [{ groups := [{ lists := [listFood] }] }] }

/-- Remote behaviour for the list-kind orchestrator over `listsFood`. -/
def lenvFood : ListEnv :=
  { getLists := Except.ok listsFood,
    searchWords := fun _ _ => Except.ok { words := [wordTaberu] },
    addWordToList := fun _ _ => Except.ok (Json.obj []) }

/-- Remote behaviour whose attach call answers with a 200 status but an
    unparseable (non-JSON) body, routed through the client gateway. -/
def envMalformedAttach : ScheduleEnv :=
  { getSchedules := Except.ok { schedules := [schedDaily] },
    searchWords := fun _ _ => Except.ok { words := [wordTaberu] },
    addWordToSchedule := fun _ _ =>
      clientRequest { status := 200, text := "<html>error</html>", json := none } }

/-! Helper lemmas shared by several claim theorems. -/

/-- The first-match loop over schedules is `List.find?`. -/
theorem findMatchingSchedule_eq_find (l : List Schedule) (t : String) :
    findMatchingSchedule l t = l.find? (scheduleMatches t) := by
  induction l with
  | nil => rfl
  | cons s rest ih =>
    cases h : scheduleMatches t s <;>
      simp [findMatchingSchedule, List.find?_cons, h, ih]

/-- The first-match loop over flattened lists is `List.find?`. -/
theorem findMatchingList_eq_find (l : List ListEntry) (t : String) :
    findMatchingList l t = l.find? (listMatches t) := by
  induction l with
  | nil => rfl
  | cons e rest ih =>
    cases h : listMatches t e <;>
      simp [findMatchingList, List.find?_cons, h, ih]

/-- Lowercasing yields the empty string exactly on the empty string. -/
theorem pyLower_eq_empty_iff (t : String) : pyLower t = "" ↔ t = "" := by
  cases t with
  | mk data =>
    constructor
    · intro h
      have hdata : data.map Char.toLower = [] := congrArg String.data h
      have : data = [] := List.map_eq_nil_iff.mp hdata
      simp [this]
    · intro h
      have : data = [] := congrArg String.data h
      subst this
      rfl

/-- C1: container resolution is a case-insensitive exact scan returning the
first match in catalog traversal order — for the Schedule kind over the flat
`schedules` array, and for the List kind over the three-level nested catalog
flattened (termtype group → subgroup → list) in traversal order. -/
theorem containerResolution_first_exact_match (target : String) :
    (∀ (schedules : List Schedule) (s : Schedule),
      findMatchingSchedule schedules target = some s ↔
        pyLower (s.name.getD "") = pyLower target ∧
        ∃ as bs, schedules = as ++ s :: bs ∧
          ∀ a ∈ as, ¬ pyLower (a.name.getD "") = pyLower target) ∧
    (∀ (r : ListsResponse) (l : ListEntry),
      findMatchingList (flattenLists r) target = some l ↔
        pyLower (l.title.getD "") = pyLower target ∧
        ∃ as bs, flattenLists r = as ++ l :: bs ∧
          ∀ a ∈ as, ¬ pyLower (a.title.getD "") = pyLower target) := by
  constructor
  · intro schedules s
    rw [findMatchingSchedule_eq_find, List.find?_eq_some]
    simp [scheduleMatches]
  · intro r l
    rw [findMatchingList_eq_find, List.find?_eq_some]
    simp [listMatches]

/-- Witness for C1 at a concrete catalog: "daily" resolves to the sole entry
named "Daily". -/
theorem containerResolution_first_exact_match_witness :
    findMatchingSchedule [schedDaily] "daily" = some schedDaily :=
  ((containerResolution_first_exact_match "daily").1 [schedDaily] schedDaily).mpr
    ⟨by decide, [], [], rfl, by simp⟩

/-- C2: term resolution invokes the remote word search with the query and
page 1, deterministically selects the first element of the result sequence
(the attach call's word id is the first result's id), and on an empty result
sequence fails with the not-found error carrying the original query string
unmodified — with no further search calls, in both orchestrators. -/
theorem termResolution_page1_first_result
    (env : ScheduleEnv) (lenv : ListEnv) (sn ln w : String)
    (resp : SchedulesResponse) (lresp : ListsResponse)
    (m : Schedule) (lm : ListEntry) (sr : SearchResponse)
    (h1 : env.getSchedules = Except.ok resp)
    (h2 : findMatchingSchedule resp.schedules sn = some m)
    (h3 : env.searchWords w 1 = Except.ok sr)
    (h4 : lenv.getLists = Except.ok lresp)
    (h5 : findMatchingList (flattenLists lresp) ln = some lm)
    (h6 : lenv.searchWords w 1 = Except.ok sr) :
    (sr.words = [] →
      add_word_by_schedule_name env sn w =
        (Except.ok (AddWordResult.wordNotFound ("Word '" ++ w ++ "' not found in dictionary")),
          [Call.getSchedules, Call.searchWords w 1]) ∧
      add_word_by_list_name lenv ln w =
        (Except.ok (AddWordResult.wordNotFound ("Word '" ++ w ++ "' not found in dictionary")),
          [Call.getLists, Call.searchWords w 1])) ∧
    (∀ w0 rest, sr.words = w0 :: rest →
      (add_word_by_schedule_name env sn w).2 =
        [Call.getSchedules, Call.searchWords w 1,
          Call.addWordToSchedule (pyStr w0.id) (pyStr m.id)] ∧
      (add_word_by_list_name lenv ln w).2 =
        [Call.getLists, Call.searchWords w 1,
          Call.addWordToList (pyStr w0.id) (pyStr lm.list_id)]) := by
  constructor
  · intro hw
    constructor
    · simp [add_word_by_schedule_name, h1, h2, h3, hw]
    · simp [add_word_by_list_name, h4, h5, h6, hw]
  · intro w0 rest hw
    constructor
    · cases ha : env.addWordToSchedule (pyStr w0.id) (pyStr m.id) <;>
        simp [add_word_by_schedule_name, h1, h2, h3, hw, ha]
    · cases ha : lenv.addWordToList (pyStr w0.id) (pyStr lm.list_id) <;>
        simp [add_word_by_list_name, h4, h5, h6, hw, ha]

/-- Witness for C2: in the concrete environments the attach call carries the
first (and only) search result's id. -/
theorem termResolution_page1_first_result_witness :
    (add_word_by_schedule_name envDaily "daily" "eat").2 =
      [Call.getSchedules, Call.searchWords "eat" 1, Call.addWordToSchedule "42" "1"] ∧
    (add_word_by_list_name lenvFood "food" "eat").2 =
      [Call.getLists, Call.searchWords "eat" 1, Call.addWordToList "42" "5"] :=
  (termResolution_page1_first_result envDaily lenvFood "daily" "food" "eat"
      { schedules := [schedDaily] } listsFood schedDaily listFood { words := [wordTaberu] }
      rfl (by decide) rfl rfl (by decide) rfl).2 wordTaberu [] rfl

/-- C3: the compound-add orchestrator short-circuits — when container
resolution fails the term search is never invoked and the result is the
container domain error; when term resolution fails after a container match the
attach call is never invoked; and on every input (any remote behaviour
whatsoever) the attach call appears at most once in the call trace. -/
theorem orchestrator_short_circuit :
    (∀ (env : ScheduleEnv) (sn w : String) (resp : SchedulesResponse),
      env.getSchedules = Except.ok resp →
      findMatchingSchedule resp.schedules sn = none →
      add_word_by_schedule_name env sn w =
        (Except.ok (AddWordResult.scheduleNotFound ("Schedule '" ++ sn ++ "' not found")
            (resp.schedules.map fun s => s.name)),
          [Call.getSchedules])) ∧
    (∀ (env : ScheduleEnv) (sn w : String) (resp : SchedulesResponse)
        (m : Schedule) (sr : SearchResponse),
      env.getSchedules = Except.ok resp →
      findMatchingSchedule resp.schedules sn = some m →
      env.searchWords w 1 = Except.ok sr →
      sr.words = [] →
      (add_word_by_schedule_name env sn w).2 =
        [Call.getSchedules, Call.searchWords w 1]) ∧
    (∀ (env : ScheduleEnv) (sn w : String),
      ((add_word_by_schedule_name env sn w).2.countP Call.isAttach) ≤ 1) := by
  refine ⟨?_, ?_, ?_⟩
  · intro env sn w resp h1 h2
    simp [add_word_by_schedule_name, h1, h2]
  · intro env sn w resp m sr h1 h2 h3 hw
    simp [add_word_by_schedule_name, h1, h2, h3, hw]
  · intro env sn w
    cases h1 : env.getSchedules with
    | error e =>
      simp [add_word_by_schedule_name, h1, List.countP_cons, List.countP_nil, Call.isAttach]
    | ok resp =>
      cases h2 : findMatchingSchedule resp.schedules sn with
      | none =>
        simp [add_word_by_schedule_name, h1, h2, List.countP_cons, List.countP_nil,
          Call.isAttach]
      | some m =>
        cases h3 : env.searchWords w 1 with
        | error e =>
          simp [add_word_by_schedule_name, h1, h2, h3, List.countP_cons, List.countP_nil,
            Call.isAttach]
        | ok sr =>
          cases h4 : sr.words with
          | nil =>
            simp [add_word_by_schedule_name, h1, h2, h3, h4, List.countP_cons,
              List.countP_nil, Call.isAttach]
          | cons w0 rest =>
            cases h5 : env.addWordToSchedule (pyStr w0.id) (pyStr m.id) with
            | error e =>
              simp [add_word_by_schedule_name, h1, h2, h3, h4, h5, List.countP_cons,
                List.countP_nil, Call.isAttach]
            | ok j =>
              simp [add_word_by_schedule_name, h1, h2, h3, h4, h5, List.countP_cons,
                List.countP_nil, Call.isAttach]

/-- Witness for C3 at a concrete input: with an empty catalog the orchestrator
stops after the catalog fetch and reports the schedule as not found. -/
theorem orchestrator_short_circuit_witness :
    add_word_by_schedule_name
        { getSchedules := Except.ok { schedules := [] },
          searchWords := fun _ _ => Except.ok { words := [wordTaberu] },
          addWordToSchedule := fun _ _ => Except.ok (Json.obj []) } "daily" "eat" =
      (Except.ok (AddWordResult.scheduleNotFound "Schedule 'daily' not found" []),
        [Call.getSchedules]) :=
  orchestrator_short_circuit.1
    { getSchedules := Except.ok { schedules := [] },
      searchWords := fun _ _ => Except.ok { words := [wordTaberu] },
      addWordToSchedule := fun _ _ => Except.ok (Json.obj []) }
    "daily" "eat" { schedules := [] } rfl rfl

/-- C4: when no container matches, resolution fails with the not-found error
carrying the complete, order-preserving list of every display name in catalog
traversal order (empty when the catalog holds zero containers), and the
orchestrator returns that as the domain-error context, for both kinds; the
name list is the traversal-order image of the catalog (same length, i-th name
of the i-th entry). -/
theorem containerNotFound_available_names :
    (∀ (env : ScheduleEnv) (sn w : String) (resp : SchedulesResponse),
      env.getSchedules = Except.ok resp →
      findMatchingSchedule resp.schedules sn = none →
      add_word_by_schedule_name env sn w =
        (Except.ok (AddWordResult.scheduleNotFound ("Schedule '" ++ sn ++ "' not found")
            (resp.schedules.map fun s => s.name)),
          [Call.getSchedules])) ∧
    (∀ (env : ListEnv) (ln w : String) (resp : ListsResponse),
      env.getLists = Except.ok resp →
      findMatchingList (flattenLists resp) ln = none →
      add_word_by_list_name env ln w =
        (Except.ok (AddWordResult.listNotFound ("List '" ++ ln ++ "' not found")
            ((flattenLists resp).map fun l => l.title)),
          [Call.getLists])) ∧
    (∀ (ss : List Schedule),
      (ss.map fun s => s.name).length = ss.length ∧
      (ss = [] → ss.map (fun s => s.name) = []) ∧
      ∀ i : Nat, (ss.map fun s => s.name)[i]? = ss[i]?.map fun s => s.name) ∧
    (∀ (ls : List ListEntry),
      (ls.map fun l => l.title).length = ls.length ∧
      ∀ i : Nat, (ls.map fun l => l.title)[i]? = ls[i]?.map fun l => l.title) := by
  refine ⟨?_, ?_, ?_, ?_⟩
  · intro env sn w resp h1 h2
    simp [add_word_by_schedule_name, h1, h2]
  · intro env ln w resp h1 h2
    simp [add_word_by_list_name, h1, h2]
  · intro ss
    refine ⟨by simp, by intro h; simp [h], ?_⟩
    intro i
    simp [List.getElem?_map]
  · intro ls
    refine ⟨by simp, ?_⟩
    intro i
    simp [List.getElem?_map]

/-- Witness for C4 at a concrete input: an unmatched name over the one-entry
nested list catalog yields the domain error listing the one title seen. -/
theorem containerNotFound_available_names_witness :
    add_word_by_list_name lenvFood "weekly" "eat" =
      (Except.ok (AddWordResult.listNotFound "List 'weekly' not found" [some "Food"]),
        [Call.getLists]) :=
  containerNotFound_available_names.2.1 lenvFood "weekly" "eat" listsFood rfl (by decide)

/-- C6: on success the compound-add result carries the matched container's id
and name, the resolved term's id, display fields and definitions, and the raw
gateway response of the attach call under the api_response field — and in the
concrete end-to-end case with containers [{id: 1, name: "Daily"}] and search
results [{id: 42, kanji_full: "食べる"}], adding "eat" by schedule name "daily"
succeeds with container id 1 and term id 42 via the case-insensitive match. -/
theorem compound_add_success_envelope :
    (∀ (env : ScheduleEnv) (sn w : String) (resp : SchedulesResponse) (m : Schedule)
        (sr : SearchResponse) (w0 : Word) (rest : List Word) (j : Json),
      env.getSchedules = Except.ok resp →
      findMatchingSchedule resp.schedules sn = some m →
      env.searchWords w 1 = Except.ok sr →
      sr.words = w0 :: rest →
      env.addWordToSchedule (pyStr w0.id) (pyStr m.id) = Except.ok j →
      add_word_by_schedule_name env sn w =
        (Except.ok (AddWordResult.success (pyStr m.id) m.name (pyStr w0.id)
            (w0.kanji_full.getD "") (w0.hiragana_full.getD "")
            (w0.defs.getD (Json.arr [])) j),
          [Call.getSchedules, Call.searchWords w 1,
            Call.addWordToSchedule (pyStr w0.id) (pyStr m.id)])) ∧
    (∀ (env : ListEnv) (ln w : String) (resp : ListsResponse) (m : ListEntry)
        (sr : SearchResponse) (w0 : Word) (rest : List Word) (j : Json),
      env.getLists = Except.ok resp →
      findMatchingList (flattenLists resp) ln = some m →
      env.searchWords w 1 = Except.ok sr →
      sr.words = w0 :: rest →
      env.addWordToList (pyStr w0.id) (pyStr m.list_id) = Except.ok j →
      add_word_by_list_name env ln w =
        (Except.ok (AddWordResult.success (pyStr m.list_id) m.title (pyStr w0.id)
            (w0.kanji_full.getD "") (w0.hiragana_full.getD "")
            (w0.defs.getD (Json.arr [])) j),
          [Call.getLists, Call.searchWords w 1,
            Call.addWordToList (pyStr w0.id) (pyStr m.list_id)])) ∧
    add_word_by_schedule_name envDaily "daily" "eat" =
      (Except.ok (AddWordResult.success "1" (some "Daily") "42" "食べる" ""
          (Json.arr []) (Json.obj [])),
        [Call.getSchedules, Call.searchWords "eat" 1,
          Call.addWordToSchedule "42" "1"]) := by
  refine ⟨?_, ?_, ?_⟩
  · intro env sn w resp m sr w0 rest j h1 h2 h3 hw ha
    simp [add_word_by_schedule_name, h1, h2, h3, hw, ha]
  · intro env ln w resp m sr w0 rest j h1 h2 h3 hw ha
    simp [add_word_by_list_name, h1, h2, h3, hw, ha]
  · rfl

/-- Witness for C6: the general success-envelope shape applied at the concrete
end-to-end fixtures. -/
theorem compound_add_success_envelope_witness :
    add_word_by_list_name lenvFood "FOOD" "eat" =
      (Except.ok (AddWordResult.success "5" (some "Food") "42" "食べる" ""
          (Json.arr []) (Json.obj [])),
        [Call.getLists, Call.searchWords "eat" 1, Call.addWordToList "42" "5"]) :=
  compound_add_success_envelope.2.1 lenvFood "FOOD" "eat" listsFood listFood
    { words := [wordTaberu] } wordTaberu [] (Json.obj []) rfl (by decide) rfl rfl rfl

/-- C5 counterexample: a catalog entry with a missing display name (and one
with an empty display name) does match the empty-string target, because the
missing name defaults to the empty string before lowercased comparison — so
such an entry is not "a non-match for every target name". -/
theorem missingName_matches_empty_target_cex :
    findMatchingSchedule [{ id := some 7, name := none }] "" =
        some { id := some 7, name := none } ∧
    scheduleMatches "" { id := some 7, name := none } = true ∧
    listMatches "" { list_id := some 3, title := some "" } = true := by
  decide

/-- C5 (amended): an entry with a missing or empty display name is treated as
having the empty-string display name: it never matches any non-empty target,
but it does match the empty-string target (and exactly that one), for both
container kinds; missing and empty names are indistinguishable to the match. -/
theorem missingName_matches_only_empty_target :
    (∀ (s : Schedule) (t : String), s.name = none ∨ s.name = some "" →
      (scheduleMatches t s = true ↔ t = "")) ∧
    (∀ (l : ListEntry) (t : String), l.title = none ∨ l.title = some "" →
      (listMatches t l = true ↔ t = "")) := by
  constructor
  · intro s t h
    have hn : s.name.getD "" = "" := by rcases h with h | h <;> simp [h]
    rw [scheduleMatches, hn]
    show (pyLower "" == pyLower t) = true ↔ t = ""
    rw [beq_iff_eq]
    constructor
    · intro h'
      exact (pyLower_eq_empty_iff t).mp h'.symm
    · intro h'
      subst h'
      rfl
  · intro l t h
    have hn : l.title.getD "" = "" := by rcases h with h | h <;> simp [h]
    rw [listMatches, hn]
    show (pyLower "" == pyLower t) = true ↔ t = ""
    rw [beq_iff_eq]
    constructor
    · intro h'
      exact (pyLower_eq_empty_iff t).mp h'.symm
    · intro h'
      subst h'
      rfl

/-- Witness for C5 (amended): an entry with a missing name does not match the
non-empty target "daily". -/
theorem missingName_matches_only_empty_target_witness :
    ¬ scheduleMatches "daily" { id := some 7, name := none } = true := by
  intro hmatch
  have : "daily" = "" :=
    (missingName_matches_only_empty_target.1 { id := some 7, name := none } "daily"
      (Or.inl rfl)).mp hmatch
  simp at this

/-- C7 counterexample: at status 404 the client gateway `_request` raises
(models `response.raise_for_status()`) instead of returning normally with the
status code and body. -/
theorem clientRequest_raises_on_status_cex :
    clientRequest { status := 404, text := "Not Found", json := some (Json.obj []) } =
      Except.error (PyError.httpStatusError 404) := rfl

/-- C7 (amended): the HTTP proxy passthrough returns normally for every
response — the payload carries the status code and the body (parsed under
data, or raw text), with ok decided by the status code — while the client
gateway `_request` raises an HTTP status error on every 4xx/5xx status instead
of returning it. -/
theorem gateway_status_handling :
    (∀ resp : HttpResponse,
      (proxy_request resp).2 = resp.status ∧
      (∀ j, resp.json = some j →
        (proxy_request resp).1 =
          ProxyPayload.dataPayload (decide (resp.status < 400)) resp.status j) ∧
      (resp.json = none →
        (proxy_request resp).1 =
          ProxyPayload.rawPayload (decide (resp.status < 400)) resp.status resp.text)) ∧
    (∀ resp : HttpResponse, 400 ≤ resp.status →
      clientRequest resp = Except.error (PyError.httpStatusError resp.status)) := by
  constructor
  · intro resp
    refine ⟨?_, ?_, ?_⟩
    · cases h : resp.json <;> simp [proxy_request, h]
    · intro j h
      simp [proxy_request, h]
    · intro h
      simp [proxy_request, h]
  · intro resp h
    simp [clientRequest, h]

/-- Witness for C7 (amended): a 500 response with an unparseable body makes
the client gateway raise the status error. -/
theorem gateway_status_handling_witness :
    clientRequest { status := 500, text := "oops", json := none } =
      Except.error (PyError.httpStatusError 500) :=
  gateway_status_handling.2 { status := 500, text := "oops", json := none } (by decide)

/-- C8 counterexample: an unparseable body on the attach call makes the
orchestrator raise a JSON decode error (propagated out of
`add_word_by_schedule_name`) instead of returning the raw text inside its
payload. -/
theorem orchestrator_crashes_on_malformed_attach_cex :
    add_word_by_schedule_name envMalformedAttach "daily" "eat" =
      (Except.error (PyError.jsonDecodeError "<html>error</html>"),
        [Call.getSchedules, Call.searchWords "eat" 1,
          Call.addWordToSchedule "42" "1"]) := rfl

/-- C8 (amended): an unparseable response body never crashes the proxy
passthrough — the raw text is returned under the distinct raw field — but the
client gateway (through which the orchestrator's attach call goes) raises a
JSON decode error on such a body, and that exception propagates out of the
orchestrator instead of being surfaced inside its payload. -/
theorem malformed_body_handling :
    (∀ resp : HttpResponse, resp.json = none →
      proxy_request resp =
        (ProxyPayload.rawPayload (decide (resp.status < 400)) resp.status resp.text,
          resp.status)) ∧
    (∀ resp : HttpResponse, resp.json = none → resp.status < 400 →
      clientRequest resp = Except.error (PyError.jsonDecodeError resp.text)) ∧
    (∀ (env : ScheduleEnv) (sn w : String) (resp : SchedulesResponse) (m : Schedule)
        (sr : SearchResponse) (w0 : Word) (rest : List Word) (e : PyError),
      env.getSchedules = Except.ok resp →
      findMatchingSchedule resp.schedules sn = some m →
      env.searchWords w 1 = Except.ok sr →
      sr.words = w0 :: rest →
      env.addWordToSchedule (pyStr w0.id) (pyStr m.id) = Except.error e →
      (add_word_by_schedule_name env sn w).1 = Except.error e) := by
  refine ⟨?_, ?_, ?_⟩
  · intro resp h
    simp [proxy_request, h]
  · intro resp h hs
    simp [clientRequest, h, Nat.not_le_of_lt hs]
  · intro env sn w resp m sr w0 rest e h1 h2 h3 hw ha
    simp [add_word_by_schedule_name, h1, h2, h3, hw, ha]

/-- Witness for C8 (amended): the proxy surfaces a concrete unparseable body
as raw text, without raising. -/
theorem malformed_body_handling_witness :
    proxy_request { status := 200, text := "<html>error</html>", json := none } =
      (ProxyPayload.rawPayload true 200 "<html>error</html>", 200) :=
  malformed_body_handling.1 { status := 200, text := "<html>error</html>", json := none } rfl

/-- C9: with neither credential in the environment, openapi-server startup
still completes, only setting the warning flag; the write credential is
preferred whenever set; client construction with no key raises a ValueError;
and at first use through the HTTP façade that error surfaces as a handled 500
envelope before any remote call — the deferred failure. -/
theorem startup_key_fallback_and_deferral :
    serverStartup none none = { apiKey := none, warned := true } ∧
    (∀ (w r : Option String), (serverStartup w r).warned = !truthyStr (pyOrStr w r)) ∧
    (∀ (wv : String) (r : Option String), wv ≠ "" →
      serverStartup (some wv) r = { apiKey := some wv, warned := false }) ∧
    clientInit none none none =
      Except.error (PyError.valueError
        "API key not found. Set RENSHUU_WRITE_KEY or RENSHUU_READ_KEY, or pass it as a parameter.") ∧
    (∀ (body : ScheduleRequestBody) (env : ScheduleEnv),
      truthyStr body.schedule_name = true → truthyStr body.word = true →
      add_word_by_schedule_name_handler none none none body env =
        { response := HandlerResponse.internalError
            "API key not found. Set RENSHUU_WRITE_KEY or RENSHUU_READ_KEY, or pass it as a parameter.",
          status := 500, calls := [] }) := by
  refine ⟨rfl, ?_, ?_, rfl, ?_⟩
  · intro w r
    rfl
  · intro wv r h
    simp [serverStartup, pyOrStr, truthyStr, h]
  · intro body env h1 h2
    unfold add_word_by_schedule_name_handler
    rw [h1, h2]
    rfl

/-- Witness for C9: a concrete valid request against a keyless deployment gets
the 500 envelope carrying the deferred key error, with no remote call made. -/
theorem startup_key_fallback_and_deferral_witness :
    add_word_by_schedule_name_handler none none none
        { schedule_name := some "Daily", word := some "eat" } envDaily =
      { response := HandlerResponse.internalError
          "API key not found. Set RENSHUU_WRITE_KEY or RENSHUU_READ_KEY, or pass it as a parameter.",
        status := 500, calls := [] } :=
  startup_key_fallback_and_deferral.2.2.2.2
    { schedule_name := some "Daily", word := some "eat" } envDaily rfl rfl

/-- C10: both convenience handlers reject a request whose name field or word
field is absent or empty with the corresponding missing-field error and HTTP
status 400, issuing no remote call; conversely any invocation that issued a
remote call had both fields present and non-empty, so an empty container name
or search term never reaches the resolver through the HTTP façade. -/
theorem handler_rejects_missing_fields :
    (∀ (ak wk rk : Option String) (body : ScheduleRequestBody) (env : ScheduleEnv),
      truthyStr body.schedule_name = false ∨ truthyStr body.word = false →
      add_word_by_schedule_name_handler ak wk rk body env =
        { response := HandlerResponse.missingFields "Missing schedule_name or word",
          status := 400, calls := [] }) ∧
    (∀ (ak wk rk : Option String) (body : ListRequestBody) (env : ListEnv),
      truthyStr body.list_name = false ∨ truthyStr body.word = false →
      add_word_by_list_name_handler ak wk rk body env =
        { response := HandlerResponse.missingFields "Missing list_name or word",
          status := 400, calls := [] }) ∧
    (∀ (ak wk rk : Option String) (body : ScheduleRequestBody) (env : ScheduleEnv),
      (add_word_by_schedule_name_handler ak wk rk body env).calls ≠ [] →
      truthyStr body.schedule_name = true ∧ truthyStr body.word = true) ∧
    (∀ (ak wk rk : Option String) (body : ListRequestBody) (env : ListEnv),
      (add_word_by_list_name_handler ak wk rk body env).calls ≠ [] →
      truthyStr body.list_name = true ∧ truthyStr body.word = true) := by
  refine ⟨?_, ?_, ?_, ?_⟩
  · intro ak wk rk body env h
    rcases h with h | h <;> simp [add_word_by_schedule_name_handler, h]
  · intro ak wk rk body env h
    rcases h with h | h <;> simp [add_word_by_list_name_handler, h]
  · intro ak wk rk body env h
    cases b1 : truthyStr body.schedule_name with
    | false =>
      exfalso
      apply h
      unfold add_word_by_schedule_name_handler
      rw [b1]
      rfl
    | true =>
      cases b2 : truthyStr body.word with
      | false =>
        exfalso
        apply h
        unfold add_word_by_schedule_name_handler
        rw [b1, b2]
        rfl
      | true => exact ⟨rfl, rfl⟩
  · intro ak wk rk body env h
    cases b1 : truthyStr body.list_name with
    | false =>
      exfalso
      apply h
      unfold add_word_by_list_name_handler
      rw [b1]
      rfl
    | true =>
      cases b2 : truthyStr body.word with
      | false =>
        exfalso
        apply h
        unfold add_word_by_list_name_handler
        rw [b1, b2]
        rfl
      | true => exact ⟨rfl, rfl⟩

/-- Witness for C10: a request with the word field present but the schedule
name absent is rejected with 400 and no remote call. -/
theorem handler_rejects_missing_fields_witness :
    add_word_by_schedule_name_handler none none none
        { schedule_name := none, word := some "eat" } envDaily =
      { response := HandlerResponse.missingFields "Missing schedule_name or word",
        status := 400, calls := [] } :=
  handler_rejects_missing_fields.1 none none none
    { schedule_name := none, word := some "eat" } envDaily (Or.inl rfl)

end Renshuu

